import Mathlib

/-!
Verification of the marketplace backend (FastAPI + document store).

The service layer lives in `src/main.py` and the validated shapes in
`src/schemas.py`.  The document-store adapter (`database.py`: `db`,
`create_document`, `get_documents`) is part of the repository but not
among the provided sources; its behaviour is modelled from the spec
(section 4.1: insert/find/findOne/update with equality filters,
case-insensitive substring match on titles, non-null checks, and range
comparisons plus sorting on nested timestamps).

Datetimes are modelled as integers (UTC timestamps), floats that are
only constructed, compared to constants and stored (`price`) as
integers, and store-assigned object ids as naturals rendered to strings.
-/

set_option maxRecDepth 40000

namespace Marketplace

/-! ## SHA-256 (the `hash_password` primitive of `src/main.py`)

`hash_password` is `hashlib.sha256(plain.encode()).hexdigest()`: the
SHA-256 digest of the UTF-8 encoding of the plaintext, rendered as
lowercase hex.  The algorithm below is FIPS 180-4 over 32-bit words,
carried out on `Nat` with explicit reduction modulo 2^32. -/

/-- Truncate to a 32-bit word. -/
def w32 (n : Nat) : Nat := n % 4294967296

/-- Rotate a 32-bit word right by `n` bits. -/
def rotr32 (x n : Nat) : Nat := w32 ((x >>> n) ||| (x <<< (32 - n)))

/-- SHA-256 big sigma 0. -/
def bSig0 (x : Nat) : Nat := rotr32 x 2 ^^^ rotr32 x 13 ^^^ rotr32 x 22

/-- SHA-256 big sigma 1. -/
def bSig1 (x : Nat) : Nat := rotr32 x 6 ^^^ rotr32 x 11 ^^^ rotr32 x 25

/-- SHA-256 small sigma 0. -/
def sSig0 (x : Nat) : Nat := rotr32 x 7 ^^^ rotr32 x 18 ^^^ (x >>> 3)

/-- SHA-256 small sigma 1. -/
def sSig1 (x : Nat) : Nat := rotr32 x 17 ^^^ rotr32 x 19 ^^^ (x >>> 10)

/-- The 64 SHA-256 round constants (decimal rendering of the FIPS 180-4
table). -/
def sha256K : List Nat :=
  [1116352408, 1899447441, 3049323471, 3921009573, 961987163,
   1508970993, 2453635748, 2870763221, 3624381080, 310598401,
   607225278, 1426881987, 1925078388, 2162078206, 2614888103,
   3248222580, 3835390401, 4022224774, 264347078, 604807628,
   770255983, 1249150122, 1555081692, 1996064986, 2554220882,
   2821834349, 2952996808, 3210313671, 3336571891, 3584528711,
   113926993, 338241895, 666307205, 773529912, 1294757372,
   1396182291, 1695183700, 1986661051, 2177026350, 2456956037,
   2730485921, 2820302411, 3259730800, 3345764771, 3516065817,
   3600352804, 4094571909, 275423344, 430227734, 506948616,
   659060556, 883997877, 958139571, 1322822218, 1537002063,
   1747873779, 1955562222, 2024104815, 2227730452, 2361852424,
   2428436474, 2756734187, 3204031479, 3329325298]

/-- The SHA-256 initial hash value (decimal rendering). -/
def sha256H0 : List Nat :=
  [1779033703, 3144134277, 1013904242, 2773480762,
   1359893119, 2600822924, 528734635, 1541459225]

/-- The `k` highest-order bytes of `n`, most significant first. -/
def toBytesBE : Nat → Nat → List Nat
  | 0, _ => []
  | k + 1, n => toBytesBE k (n >>> 8) ++ [n % 256]

/-- SHA-256 padding: append `0x80`, zeros, and the 64-bit big-endian bit
length so that the total length is a multiple of 64 bytes. -/
def padMessage (msg : List Nat) : List Nat :=
  let padZeros := (119 - msg.length % 64) % 64
  msg ++ [0x80] ++ List.replicate padZeros 0 ++ toBytesBE 8 (msg.length * 8)

/-- Group a byte list into big-endian 32-bit words. -/
def bytesToWords : List Nat → List Nat
  | b0 :: b1 :: b2 :: b3 :: rest =>
      (((b0 * 256 + b1) * 256 + b2) * 256 + b3) :: bytesToWords rest
  | _ => []

/-- Split the first `16 * k` words of a list into blocks of 16 words. -/
def chunk16Go : Nat → List Nat → List (List Nat)
  | 0, _ => []
  | k + 1, ws => ws.take 16 :: chunk16Go k (ws.drop 16)

/-- Split a word list into blocks of 16 words. -/
def chunk16 (ws : List Nat) : List (List Nat) := chunk16Go (ws.length / 16) ws

/-- Extend a 16-word block to the 64-word message schedule. -/
def schedule (block : List Nat) : Array Nat :=
  (List.range 48).foldl
    (fun w i =>
      let t := i + 16
      w.push (w32 (sSig1 w[t - 2]! + w[t - 7]! + sSig0 w[t - 15]! + w[t - 16]!)))
    block.toArray

/-- One SHA-256 compression round on the eight working variables. -/
def sha256Round (w : Array Nat) (st : List Nat) (t : Nat) : List Nat :=
  match st with
  | [a, b, c, d, e, f, g, h] =>
    let ch := (e &&& f) ^^^ ((e ^^^ 4294967295) &&& g)
    let temp1 := w32 (h + bSig1 e + ch + sha256K[t]! + w[t]!)
    let maj := (a &&& b) ^^^ (a &&& c) ^^^ (b &&& c)
    let temp2 := w32 (bSig0 a + maj)
    [w32 (temp1 + temp2), a, b, c, w32 (d + temp1), e, f, g]
  | _ => st

/-- Compress one 16-word block into the running hash value. -/
def compressBlock (h : List Nat) (block : List Nat) : List Nat :=
  let w := schedule block
  let final := (List.range 64).foldl (sha256Round w) h
  List.zipWith (fun x y => w32 (x + y)) h final

/-- The eight 32-bit words of the SHA-256 digest of a byte sequence. -/
def sha256Words (msg : List Nat) : List Nat :=
  (chunk16 (bytesToWords (padMessage msg))).foldl compressBlock sha256H0

/-- A lowercase hexadecimal digit. -/
def hexDigit (n : Nat) : Char :=
  if n < 10 then Char.ofNat (48 + n) else Char.ofNat (87 + n)

/-- A 32-bit word as eight lowercase hex digits. -/
def toHex8 (n : Nat) : List Char :=
  (List.range 8).map (fun i => hexDigit ((n >>> ((7 - i) * 4)) % 16))

/-- `hash_password` from `src/main.py`: sha256 of the UTF-8 encoding of
the plaintext, as a lowercase hex string. -/
def hash_password (plain : String) : String :=
  String.mk (((sha256Words (plain.toUTF8.data.toList.map (fun b => b.toNat))).map toHex8).flatten)

/-! ## Data model (`src/schemas.py`)

Stored documents carry the store-assigned id (`_id`, modelled as a
`Nat`); response projections render it as a string, as `to_str_id` and
the handlers in `src/main.py` do. -/

/-- `FlashSale` of `src/schemas.py`: `discount_percent` (int, constrained
to [1,95] by validation) and `ends_at` (datetime, modelled as an integer
UTC timestamp). -/
structure FlashSale where
  discount_percent : Int
  ends_at : Int
deriving Repr, DecidableEq

/-- A document of the `user` collection (schema `User`). -/
structure StoredUser where
  id : Nat
  name : String
  email : String
  password_hash : String
  avatar_url : Option String
  is_active : Bool
deriving Repr, DecidableEq

/-- A document of the `product` collection (schema `Product`).
`price` is a float in the source; it is only constructed, range-checked
and stored, so it is modelled as a rational. -/
structure StoredProduct where
  id : Nat
  title : String
  description : Option String
  price : Rat
  category : String
  images : List String
  seller_id : Option String
  flash_sale : Option FlashSale
  in_stock : Bool
deriving Repr, DecidableEq

/-- A document of the `cartitem` collection (schema `CartItem`), with the
`updated_at` timestamp the cart upsert refreshes. -/
structure StoredCartItem where
  id : Nat
  user_id : String
  product_id : String
  quantity : Int
  updated_at : Int
deriving Repr, DecidableEq

/-- The document store: one list per collection in insertion (natural)
order, plus the next store-assigned id. -/
structure Store where
  users : List StoredUser
  products : List StoredProduct
  cartitems : List StoredCartItem
  nextId : Nat
deriving Repr, DecidableEq

/-- `RegisterRequest` of `src/schemas.py`. -/
structure RegisterRequest where
  name : String
  email : String
  password : String
deriving Repr, DecidableEq

/-- `LoginRequest` of `src/schemas.py`. -/
structure LoginRequest where
  email : String
  password : String
deriving Repr, DecidableEq

/-- The user summary returned by register and (nested) by login. -/
structure UserSummary where
  id : String
  name : String
  email : String
deriving Repr, DecidableEq

/-- The login response body. -/
structure LoginOut where
  token : String
  user : UserSummary
deriving Repr, DecidableEq

/-- `ProductCreate` of `src/schemas.py` (request body of POST /products). -/
structure ProductCreate where
  title : String
  description : Option String
  price : Rat
  category : String
  images : List String
  flash_sale : Option FlashSale
  in_stock : Bool
deriving Repr, DecidableEq

/-- `ProductOut` of `src/schemas.py`. -/
structure ProductOut where
  id : String
  title : String
  description : Option String
  price : Rat
  category : String
  images : List String
  seller_id : Option String
  flash_sale : Option FlashSale
  in_stock : Bool
deriving Repr, DecidableEq

/-- `CartItem` of `src/schemas.py` as a request body (validation
constrains `quantity` to [1,10]). -/
structure CartItem where
  user_id : String
  product_id : String
  quantity : Int
deriving Repr, DecidableEq

/-- `CartItemOut` of `src/schemas.py`. -/
structure CartItemOut where
  id : String
  product_id : String
  quantity : Int
deriving Repr, DecidableEq

/-- An HTTP outcome: a 200 body, or an error status with detail string
(`HTTPException` / validation rejection). -/
inductive Resp (α : Type) where
  | ok : α → Resp α
  | err : Nat → String → Resp α
deriving Repr, DecidableEq

/-- Projection of a stored product to `ProductOut`, as
`ProductOut(**to_str_id(d))` in `src/main.py`. -/
def productOut (p : StoredProduct) : ProductOut :=
  { id := toString p.id, title := p.title, description := p.description,
    price := p.price, category := p.category, images := p.images,
    seller_id := p.seller_id, flash_sale := p.flash_sale, in_stock := p.in_stock }

/-! ## Store adapter

The adapter (`database.py`) is not among the provided sources; the
operations below are modelled from the spec, section 4.1:
`insert(collection, document) -> identifier` (store-assigned unique id),
`findOne(collection, filter) -> document|absent` (first document in
natural order matching an equality filter), `update` of named fields on
one document, and `find` supporting case-insensitive substring match on
titles, non-null checks, range comparisons on nested timestamps, and an
ascending sort specification. -/

/-- Case-insensitive substring test on character lists: `needle` occurs
contiguously in `hay` after lowercasing. -/
def hasSub (needle : List Char) : List Char → Bool
  | [] => needle.isEmpty
  | c :: rest => needle.isPrefixOf (c :: rest) || hasSub needle rest

/-- Modelled from the spec: the adapter title filter is case-insensitive
substring match (`$regex` with `$options: i` in the handler source). -/
def containsCI (hay needle : String) : Bool :=
  hasSub (needle.data.map Char.toLower) (hay.data.map Char.toLower)

/-- The product filter dictionary built by `list_products`:
an optional case-insensitive title pattern and an optional
`flash_sale != null` condition. -/
structure ProductFilter where
  titlePat : Option String
  flashNeNull : Bool
deriving Repr, DecidableEq

/-- Modelled from the spec: evaluation of a product filter dictionary by
the store (equality/substring/non-null conditions). -/
def matchesFilter (f : ProductFilter) (p : StoredProduct) : Bool :=
  (match f.titlePat with
   | some s => containsCI p.title s
   | none => true) &&
  (!f.flashNeNull || p.flash_sale.isSome)

/-- Modelled from the spec: `get_documents("product", filter_dict)`
returns the documents matching the filter, in natural order. -/
def get_documents (st : Store) (f : ProductFilter) : List StoredProduct :=
  st.products.filter (matchesFilter f)

/-- The nested `flash_sale.ends_at` key, for the flash query and sort
(documents without the nested field never match a `$gt` condition). -/
def endsAtKey (p : StoredProduct) : Int :=
  match p.flash_sale with
  | some fs => fs.ends_at
  | none => 0

/-- The `flash_sale.ends_at > now` condition of the flash query. -/
def activeFlash (now : Int) (p : StoredProduct) : Bool :=
  match p.flash_sale with
  | some fs => decide (now < fs.ends_at)
  | none => false

/-! ## Service layer (`src/main.py`) -/

/-- `register` (POST /auth/register): reject a duplicate email with 400,
else insert one `User` document with the hashed password and
`is_active=true` and return `id`, `name`, `email`. -/
def register (st : Store) (payload : RegisterRequest) : Resp UserSummary × Store :=
  match st.users.find? (fun u => u.email == payload.email) with
  | some _ => (.err 400 "Email already registered", st)
  | none =>
    let user : StoredUser :=
      { id := st.nextId, name := payload.name, email := payload.email,
        password_hash := hash_password payload.password,
        avatar_url := none, is_active := true }
    (.ok { id := toString st.nextId, name := payload.name, email := payload.email },
     { st with users := st.users ++ [user], nextId := st.nextId + 1 })

/-- `login` (POST /auth/login): fetch the user by exact email; absent
user and hash mismatch both yield 401 "Invalid credentials"; on success
the token is the user id string. -/
def login (st : Store) (payload : LoginRequest) : Resp LoginOut :=
  match st.users.find? (fun u => u.email == payload.email) with
  | none => .err 401 "Invalid credentials"
  | some u =>
    if u.password_hash != hash_password payload.password then
      .err 401 "Invalid credentials"
    else
      .ok { token := toString u.id,
            user := { id := toString u.id, name := u.name, email := u.email } }

/-- Validation of `ProductCreate` (`src/schemas.py`, lines 62-69),
performed by the framework before the handler runs: the request model
constrains none of its own fields (`price` is a plain unconstrained
float there), but its nested `FlashSale` model carries
`discount_percent` `ge=1, le=95` (`src/schemas.py`, line 19). The
`ge=0` bound on `price` sits only on the stored `Product` model. -/
def validProductCreate (p : ProductCreate) : Bool :=
  match p.flash_sale with
  | some fs => decide (1 ≤ fs.discount_percent) && decide (fs.discount_percent ≤ 95)
  | none => true

/-- `create_product` (POST /products) including the framework
validation step: a body violating the nested `FlashSale` bounds is
rejected with 422 before the handler runs. Otherwise the handler
constructs `Product(...)` (`src/main.py`, line 87), whose own `ge=0`
constraint on `price` (`src/schemas.py`, line 40) raises an uncaught
pydantic error when the price is negative; no handler or try/except
catches it, so it surfaces as HTTP 500, before any store write.
Otherwise the product is inserted (`seller_id = token or None`) and
the re-fetched document is projected to `ProductOut`. -/
def create_product (st : Store) (payload : ProductCreate) (token : Option String) :
    Resp ProductOut × Store :=
  if !validProductCreate payload then
    (.err 422 "validation error", st)
  else if payload.price < 0 then
    (.err 500 "Internal Server Error", st)
  else
    let seller_id := match token with
      | some t => if t = "" then none else some t
      | none => none
    let product : StoredProduct :=
      { id := st.nextId, title := payload.title, description := payload.description,
        price := payload.price, category := payload.category,
        images := payload.images, seller_id := seller_id,
        flash_sale := payload.flash_sale, in_stock := payload.in_stock }
    (.ok (productOut product),
     { st with products := st.products ++ [product], nextId := st.nextId + 1 })

/-- `list_products` (GET /products): build the filter dictionary (title
condition only for a truthy, i.e. nonempty, `q`; `flash_sale != null`
only when `flash_only`), query the store, and project. -/
def list_products (st : Store) (q : Option String) (flash_only : Bool) :
    List ProductOut :=
  let f0 : ProductFilter := { titlePat := none, flashNeNull := false }
  let f1 := match q with
    | some s => if s = "" then f0 else { f0 with titlePat := some s }
    | none => f0
  let f2 := if flash_only then { f1 with flashNeNull := true } else f1
  (get_documents st f2).map productOut

/-- Validation of `CartItem` (`src/schemas.py`): `quantity` in [1,10]
(`ge=1, le=10`). Performed by the framework before the handler runs. -/
def validCartItem (item : CartItem) : Bool :=
  decide (1 ≤ item.quantity) && decide (item.quantity ≤ 10)

/-- Update of the first cart document with the given id, setting only
`quantity` and `updated_at` (the `$set` of `update_one` in
`add_to_cart`). -/
def setQuantityById (rows : List StoredCartItem) (i : Nat) (qty : Int) (now : Int) :
    List StoredCartItem :=
  match rows with
  | [] => []
  | r :: rest =>
    if r.id = i then { r with quantity := qty, updated_at := now } :: rest
    else r :: setQuantityById rest i qty now

/-- `add_to_cart` (POST /cart/add) including the framework validation
step. Upsert: if a row for `(user_id, product_id)` exists, set its
quantity to `min(10, existing + added)` and refresh `updated_at`; else
insert the item as a new row. (`existing.get("quantity", 1)` defaults to
1 only for a document missing the field; stored documents always carry
it in this model.) -/
def add_to_cart (st : Store) (item : CartItem) (now : Int) :
    Resp CartItemOut × Store :=
  if !validCartItem item then
    (.err 422 "validation error", st)
  else
    match st.cartitems.find?
        (fun r => r.user_id == item.user_id && r.product_id == item.product_id) with
    | some existing =>
      let new_qty := min 10 (existing.quantity + item.quantity)
      (.ok { id := toString existing.id, product_id := existing.product_id,
             quantity := new_qty },
       { st with cartitems := setQuantityById st.cartitems existing.id new_qty now })
    | none =>
      let row : StoredCartItem :=
        { id := st.nextId, user_id := item.user_id, product_id := item.product_id,
          quantity := item.quantity, updated_at := now }
      (.ok { id := toString st.nextId, product_id := row.product_id,
             quantity := row.quantity },
       { st with cartitems := st.cartitems ++ [row], nextId := st.nextId + 1 })

/-- `flash_sales` (GET /flash): the store query
`find(flash_sale.ends_at > now).sort(flash_sale.ends_at, 1)`, projected.
Modelled from the spec: range comparison on the nested timestamp and
ascending sort are performed by the store. -/
def flash_sales (st : Store) (now : Int) : List ProductOut :=
  (((st.products.filter (activeFlash now)).mergeSort
      (fun a b => decide (endsAtKey a ≤ endsAtKey b))).map productOut)

/-! ## Cart lemmas -/

/-- Two cart rows with distinct `(user_id, product_id)` keys. -/
def DistinctKeys (a b : StoredCartItem) : Prop :=
  ¬(a.user_id = b.user_id ∧ a.product_id = b.product_id)

/-- The cart invariant of the spec: quantities in [1,10] and at most one
row per `(user_id, product_id)` pair. -/
def CartInv (st : Store) : Prop :=
  (∀ r ∈ st.cartitems, 1 ≤ r.quantity ∧ r.quantity ≤ 10) ∧
  st.cartitems.Pairwise DistinctKeys

instance (a b : StoredCartItem) : Decidable (DistinctKeys a b) := by
  unfold DistinctKeys; exact inferInstance

instance (st : Store) : Decidable (CartInv st) := by
  unfold CartInv; exact inferInstance

/-- The `flash_sale.ends_at` sort key seen through the output
projection. -/
def endsAtKeyOut (p : ProductOut) : Int :=
  match p.flash_sale with
  | some fs => fs.ends_at
  | none => 0

theorem setQuantityById_of_no_id {pre : List StoredCartItem} {e : StoredCartItem}
    {suf : List StoredCartItem} {qty now : Int}
    (hpre : ∀ x ∈ pre, x.id ≠ e.id) :
    setQuantityById (pre ++ e :: suf) e.id qty now =
      pre ++ { e with quantity := qty, updated_at := now } :: suf := by
  induction pre with
  | nil => simp [setQuantityById]
  | cons x pre ih =>
    have hx : x.id ≠ e.id := hpre x (by simp)
    simp only [List.cons_append, setQuantityById, if_neg hx, List.append_eq]
    rw [ih (fun y hy => hpre y (List.mem_cons_of_mem x hy))]

theorem mem_setQuantityById {rows : List StoredCartItem} {i : Nat} {qty now : Int}
    {y : StoredCartItem} (h : y ∈ setQuantityById rows i qty now) :
    ∃ x ∈ rows, y.user_id = x.user_id ∧ y.product_id = x.product_id ∧
      (y = x ∨ y.quantity = qty) := by
  induction rows with
  | nil => simp [setQuantityById] at h
  | cons r rest ih =>
    by_cases hr : r.id = i
    · simp only [setQuantityById, if_pos hr, List.mem_cons] at h
      rcases h with h | h
      · exact ⟨r, List.mem_cons_self r rest, by simp [h]⟩
      · exact ⟨y, List.mem_cons_of_mem r h, rfl, rfl, Or.inl rfl⟩
    · simp only [setQuantityById, if_neg hr, List.mem_cons] at h
      rcases h with h | h
      · exact ⟨r, List.mem_cons_self r rest, by simp [h]⟩
      · obtain ⟨x, hx, h1, h2, h3⟩ := ih h
        exact ⟨x, List.mem_cons_of_mem r hx, h1, h2, h3⟩

theorem pairwise_setQuantityById {rows : List StoredCartItem} {i : Nat} {qty now : Int}
    (h : rows.Pairwise DistinctKeys) :
    (setQuantityById rows i qty now).Pairwise DistinctKeys := by
  induction rows with
  | nil => simp [setQuantityById]
  | cons r rest ih =>
    rcases List.pairwise_cons.mp h with ⟨hr, hrest⟩
    by_cases hid : r.id = i
    · simp only [setQuantityById, if_pos hid]
      exact List.pairwise_cons.mpr ⟨fun x hx => hr x hx, hrest⟩
    · simp only [setQuantityById, if_neg hid]
      refine List.pairwise_cons.mpr ⟨?_, ih hrest⟩
      intro y hy
      obtain ⟨x, hx, h1, h2, _⟩ := mem_setQuantityById hy
      have hd := hr x hx
      simp only [DistinctKeys] at hd ⊢
      rw [h1, h2]
      exact hd

end Marketplace

namespace Marketplace

/-- C1: for an add-to-cart call with quantity in [1,10]: if a row for
`(user_id, product_id)` exists with quantity `e`, the call sets and
returns quantity `min(10, e + q)`; if none exists, it inserts exactly
one new row whose quantity equals `q` and returns it. -/
theorem add_to_cart_upsert (st : Store) (item : CartItem) (now : Int)
    (hq1 : 1 ≤ item.quantity) (hq2 : item.quantity ≤ 10)
    (hids : st.cartitems.Pairwise (fun a b => a.id ≠ b.id)) :
    (∀ e, st.cartitems.find?
        (fun r => r.user_id == item.user_id && r.product_id == item.product_id) = some e →
      (add_to_cart st item now).1 =
        .ok ⟨toString e.id, e.product_id, min 10 (e.quantity + item.quantity)⟩ ∧
      ∃ pre suf, st.cartitems = pre ++ e :: suf ∧
        (add_to_cart st item now).2.cartitems =
          pre ++ { e with quantity := min 10 (e.quantity + item.quantity),
                          updated_at := now } :: suf) ∧
    (st.cartitems.find?
        (fun r => r.user_id == item.user_id && r.product_id == item.product_id) = none →
      (add_to_cart st item now).1 =
        .ok ⟨toString st.nextId, item.product_id, item.quantity⟩ ∧
      (add_to_cart st item now).2.cartitems =
        st.cartitems ++ [⟨st.nextId, item.user_id, item.product_id, item.quantity, now⟩]) := by
  have hval : validCartItem item = true := by simp [validCartItem, hq1, hq2]
  constructor
  · intro e hfind
    obtain ⟨hpe, pre, suf, hdecomp, hprenone⟩ := List.find?_eq_some.mp hfind
    have hplift : ∀ x ∈ pre, x.id ≠ e.id := by
      intro x hx
      exact (List.pairwise_append.mp (hdecomp ▸ hids)).2.2 x hx e (by simp)
    refine ⟨by simp [add_to_cart, hval, hfind], pre, suf, hdecomp, ?_⟩
    have h2 : (add_to_cart st item now).2.cartitems =
        setQuantityById st.cartitems e.id (min 10 (e.quantity + item.quantity)) now := by
      simp [add_to_cart, hval, hfind]
    rw [h2, hdecomp, setQuantityById_of_no_id hplift]
  · intro hfind
    exact ⟨by simp [add_to_cart, hval, hfind], by simp [add_to_cart, hval, hfind]⟩

/-- Witness for C1, both branches: quantity 7 plus 5 caps at 10, and an
add for a fresh pair inserts one row with the given quantity. -/
theorem add_to_cart_upsert_witness :
    ((add_to_cart ⟨[], [], [⟨0, "u", "p", 7, 0⟩], 1⟩ ⟨"u", "p", 5⟩ 3).1 =
      .ok ⟨"0", "p", 10⟩) ∧
    ((add_to_cart ⟨[], [], [], 0⟩ ⟨"u", "p", 5⟩ 3).2.cartitems =
      [⟨0, "u", "p", 5, 3⟩]) := by
  constructor
  · exact ((add_to_cart_upsert ⟨[], [], [⟨0, "u", "p", 7, 0⟩], 1⟩ ⟨"u", "p", 5⟩ 3
      (by decide) (by decide) (by decide)).1 ⟨0, "u", "p", 7, 0⟩ rfl).1
  · exact ((add_to_cart_upsert ⟨[], [], [], 0⟩ ⟨"u", "p", 5⟩ 3
      (by decide) (by decide) (by decide)).2 rfl).2

/-- C2: add-to-cart preserves the cart invariant: all stored quantities
stay in [1,10] and at most one row exists per `(user_id, product_id)`
pair. -/
theorem add_to_cart_inv (st : Store) (item : CartItem) (now : Int)
    (h : CartInv st) : CartInv (add_to_cart st item now).2 := by
  obtain ⟨hb, hp⟩ := h
  cases hval : validCartItem item with
  | false =>
    have h2 : (add_to_cart st item now).2 = st := by simp [add_to_cart, hval]
    rw [h2]; exact ⟨hb, hp⟩
  | true =>
    have hq : 1 ≤ item.quantity ∧ item.quantity ≤ 10 := by
      simpa [validCartItem] using hval
    cases hfind : st.cartitems.find?
        (fun r => r.user_id == item.user_id && r.product_id == item.product_id) with
    | none =>
      have h2 : (add_to_cart st item now).2.cartitems =
          st.cartitems ++ [⟨st.nextId, item.user_id, item.product_id, item.quantity, now⟩] := by
        simp [add_to_cart, hval, hfind]
      refine ⟨?_, ?_⟩ <;> rw [h2]
      · intro r hr
        rcases List.mem_append.mp hr with hm | hm
        · exact hb r hm
        · simp at hm; rw [hm]; exact hq
      · refine List.pairwise_append.mpr ⟨hp, List.pairwise_singleton _ _, ?_⟩
        intro a ha b hbm
        simp at hbm
        have hno := List.find?_eq_none.mp hfind a ha
        simp only [Bool.and_eq_true, beq_iff_eq, not_and] at hno
        rw [hbm]
        simp only [DistinctKeys, not_and]
        intro h1 h2
        exact absurd h2 (hno h1)
    | some e =>
      have he : e ∈ st.cartitems := List.mem_of_find?_eq_some hfind
      have heb := hb e he
      have h2 : (add_to_cart st item now).2.cartitems =
          setQuantityById st.cartitems e.id (min 10 (e.quantity + item.quantity)) now := by
        simp [add_to_cart, hval, hfind]
      refine ⟨?_, ?_⟩ <;> rw [h2]
      · intro r hr
        obtain ⟨x, hx, _, _, hcase⟩ := mem_setQuantityById hr
        rcases hcase with heq | hqty
        · rw [heq]; exact hb x hx
        · rw [hqty]
          exact ⟨le_min (by norm_num) (by omega), min_le_left _ _⟩
      · exact pairwise_setQuantityById hp

/-- Witness for C2: a store with one row of quantity 7 satisfies the
invariant, and so does the result of adding 5 more. -/
theorem add_to_cart_inv_witness :
    CartInv (add_to_cart ⟨[], [], [⟨0, "u", "p", 7, 0⟩], 1⟩ ⟨"u", "p", 5⟩ 3).2 :=
  add_to_cart_inv ⟨[], [], [⟨0, "u", "p", 7, 0⟩], 1⟩ ⟨"u", "p", 5⟩ 3 (by decide)

/-- C8: when add-to-cart updates an existing row, only that row's
`quantity` and `updated_at` change; its other fields and every other
row, collection and the id counter are untouched. -/
theorem add_to_cart_frame (st : Store) (item : CartItem) (now : Int)
    (hq1 : 1 ≤ item.quantity) (hq2 : item.quantity ≤ 10)
    (hids : st.cartitems.Pairwise (fun a b => a.id ≠ b.id)) :
    ∀ e, st.cartitems.find?
        (fun r => r.user_id == item.user_id && r.product_id == item.product_id) = some e →
      ∃ pre suf, st.cartitems = pre ++ e :: suf ∧
        (add_to_cart st item now).2 =
          { st with cartitems :=
              pre ++ { e with quantity := min 10 (e.quantity + item.quantity),
                              updated_at := now } :: suf } := by
  have hval : validCartItem item = true := by simp [validCartItem, hq1, hq2]
  intro e hfind
  obtain ⟨hpe, pre, suf, hdecomp, hprenone⟩ := List.find?_eq_some.mp hfind
  have hplift : ∀ x ∈ pre, x.id ≠ e.id := by
    intro x hx
    exact (List.pairwise_append.mp (hdecomp ▸ hids)).2.2 x hx e (by simp)
  refine ⟨pre, suf, hdecomp, ?_⟩
  have h2 : (add_to_cart st item now).2 =
      { st with cartitems :=
          setQuantityById st.cartitems e.id (min 10 (e.quantity + item.quantity)) now } := by
    simp [add_to_cart, hval, hfind]
  rw [h2, hdecomp, setQuantityById_of_no_id hplift]

/-- Witness for C8: updating the middle row of a three-row cart leaves
the neighbouring rows and the other collections untouched. -/
theorem add_to_cart_frame_witness :
    ∃ pre suf,
      ([⟨0, "a", "x", 2, 0⟩, ⟨1, "u", "p", 7, 0⟩, ⟨2, "b", "y", 3, 0⟩] :
          List StoredCartItem) = pre ++ ⟨1, "u", "p", 7, 0⟩ :: suf ∧
      (add_to_cart ⟨[], [], [⟨0, "a", "x", 2, 0⟩, ⟨1, "u", "p", 7, 0⟩, ⟨2, "b", "y", 3, 0⟩], 3⟩
          ⟨"u", "p", 5⟩ 9).2 =
        { users := [], products := [],
          cartitems := pre ++ ⟨1, "u", "p", 10, 9⟩ :: suf, nextId := 3 } :=
  add_to_cart_frame ⟨[], [], [⟨0, "a", "x", 2, 0⟩, ⟨1, "u", "p", 7, 0⟩, ⟨2, "b", "y", 3, 0⟩], 3⟩
    ⟨"u", "p", 5⟩ 9 (by decide) (by decide) (by decide) ⟨1, "u", "p", 7, 0⟩ rfl

/-- C9: add-to-cart is monotone in the stored quantity: for an existing
row with quantity in [1,10] and an added quantity in [1,10], the
returned quantity `min(10, e + q)` is at least the existing one. -/
theorem add_to_cart_monotone (st : Store) (item : CartItem) (now : Int)
    (e : StoredCartItem)
    (hfind : st.cartitems.find?
        (fun r => r.user_id == item.user_id && r.product_id == item.product_id) = some e)
    (he1 : 1 ≤ e.quantity) (he10 : e.quantity ≤ 10)
    (hq1 : 1 ≤ item.quantity) (hq2 : item.quantity ≤ 10) :
    ∃ out, (add_to_cart st item now).1 = .ok out ∧ e.quantity ≤ out.quantity := by
  have hval : validCartItem item = true := by simp [validCartItem, hq1, hq2]
  refine ⟨⟨toString e.id, e.product_id, min 10 (e.quantity + item.quantity)⟩, ?_, ?_⟩
  · simp [add_to_cart, hval, hfind]
  · exact le_min (by omega) (by omega)

/-- Witness for C9: adding 5 to an existing quantity of 7 yields 10,
which does not decrease the row. -/
theorem add_to_cart_monotone_witness :
    ∃ out, (add_to_cart ⟨[], [], [⟨0, "u", "p", 7, 0⟩], 1⟩ ⟨"u", "p", 5⟩ 3).1 = .ok out ∧
      (7 : Int) ≤ out.quantity :=
  add_to_cart_monotone ⟨[], [], [⟨0, "u", "p", 7, 0⟩], 1⟩ ⟨"u", "p", 5⟩ 3
    ⟨0, "u", "p", 7, 0⟩ rfl (by decide) (by decide) (by decide) (by decide)

theorem activeFlash_iff (now : Int) (p : StoredProduct) :
    activeFlash now p = true ↔ ∃ fs, p.flash_sale = some fs ∧ now < fs.ends_at := by
  cases hfs : p.flash_sale with
  | none => simp [activeFlash, hfs]
  | some fs => simp [activeFlash, hfs]

/-- C3: the flash endpoint returns exactly the products whose
`flash_sale.ends_at` is strictly greater than the current time
(products with no flash sale or an expired one excluded), sorted in
ascending order of `ends_at`. -/
theorem flash_sales_spec (st : Store) (now : Int) :
    (flash_sales st now).Perm
      ((st.products.filter (activeFlash now)).map productOut) ∧
    (flash_sales st now).Sorted (fun a b => endsAtKeyOut a ≤ endsAtKeyOut b) ∧
    (∀ o, o ∈ flash_sales st now ↔
      ∃ p ∈ st.products,
        (∃ fs, p.flash_sale = some fs ∧ now < fs.ends_at) ∧ o = productOut p) := by
  have hperm : ((st.products.filter (activeFlash now)).mergeSort
        (fun a b => decide (endsAtKey a ≤ endsAtKey b))).Perm
      (st.products.filter (activeFlash now)) :=
    List.mergeSort_perm _ _
  refine ⟨hperm.map productOut, ?_, ?_⟩
  · have hs := @List.sorted_mergeSort StoredProduct
      (fun a b : StoredProduct => decide (endsAtKey a ≤ endsAtKey b))
      (fun a b c hab hbc => by
        simp only [decide_eq_true_eq] at hab hbc ⊢
        omega)
      (fun a b => by
        simp only [Bool.or_eq_true, decide_eq_true_eq]
        omega)
      (st.products.filter (activeFlash now))
    exact List.Pairwise.map productOut
      (fun a b hab => by simpa [endsAtKeyOut, productOut] using hab) hs
  · intro o
    unfold flash_sales
    rw [(hperm.map productOut).mem_iff]
    simp only [List.mem_map, List.mem_filter, activeFlash_iff]
    constructor
    · rintro ⟨p, ⟨hp, hact⟩, rfl⟩
      exact ⟨p, hp, hact, rfl⟩
    · rintro ⟨p, hp, hact, rfl⟩
      exact ⟨p, ⟨hp, hact⟩, rfl⟩

/-- C4: for a non-empty query string, list-products returns exactly the
products whose title contains the query as a case-insensitive
substring; with `flash_only`, only products with a non-null
`flash_sale`, regardless of expiry. -/
theorem list_products_filter (st : Store) (s : String) (fl : Bool)
    (hs : s ≠ "") :
    ∀ o, o ∈ list_products st (some s) fl ↔
      ∃ p ∈ st.products, containsCI p.title s = true ∧
        (fl = true → p.flash_sale.isSome = true) ∧ o = productOut p := by
  intro o
  have e1 : list_products st (some s) fl =
      (st.products.filter (matchesFilter ⟨some s, fl⟩)).map productOut := by
    cases fl <;> simp [list_products, get_documents, hs]
  rw [e1]
  simp only [List.mem_map, List.mem_filter]
  constructor
  · rintro ⟨p, ⟨hp, hm⟩, rfl⟩
    simp only [matchesFilter, Bool.and_eq_true, Bool.or_eq_true] at hm
    refine ⟨p, hp, hm.1, ?_, rfl⟩
    intro hfl
    rcases hm.2 with hcase | hcase
    · rw [hfl] at hcase
      simp at hcase
    · exact hcase
  · rintro ⟨p, hp, hm, hf, rfl⟩
    refine ⟨p, ⟨hp, ?_⟩, rfl⟩
    simp only [matchesFilter, Bool.and_eq_true, Bool.or_eq_true]
    refine ⟨hm, ?_⟩
    cases hfl : fl
    · exact Or.inl rfl
    · exact Or.inr (hf hfl)

/-- Witness for C4: querying "phone" matches "Smartphone X" and not
"Laptop". -/
theorem list_products_filter_witness :
    (productOut ⟨1, "Smartphone X", none, 5, "c", [], none, none, true⟩ ∈
      list_products
        ⟨[], [⟨1, "Smartphone X", none, 5, "c", [], none, none, true⟩,
              ⟨2, "Laptop", none, 7, "c", [], none, none, true⟩], [], 3⟩
        (some "phone") false) ∧
    ¬(productOut ⟨2, "Laptop", none, 7, "c", [], none, none, true⟩ ∈
      list_products
        ⟨[], [⟨1, "Smartphone X", none, 5, "c", [], none, none, true⟩,
              ⟨2, "Laptop", none, 7, "c", [], none, none, true⟩], [], 3⟩
        (some "phone") false) := by
  constructor
  · exact (list_products_filter
      ⟨[], [⟨1, "Smartphone X", none, 5, "c", [], none, none, true⟩,
            ⟨2, "Laptop", none, 7, "c", [], none, none, true⟩], [], 3⟩
      "phone" false (by decide) _).mpr
      ⟨⟨1, "Smartphone X", none, 5, "c", [], none, none, true⟩,
        by simp, by decide, by simp, rfl⟩
  · intro hmem
    obtain ⟨p, hp, hm, _, hout⟩ := (list_products_filter
      ⟨[], [⟨1, "Smartphone X", none, 5, "c", [], none, none, true⟩,
            ⟨2, "Laptop", none, 7, "c", [], none, none, true⟩], [], 3⟩
      "phone" false (by decide) _).mp hmem
    rcases List.mem_pair.mp hp with rfl | rfl
    · exact absurd hout (by decide)
    · exact absurd hm (by decide)

/-- C5: login with an unknown email and login with a wrong password
both yield the identical 401 "Invalid credentials" response; with
matching credentials it returns the user id string as the token plus
the id/name/email summary. -/
theorem login_spec (st : Store) (payload : LoginRequest) :
    (st.users.find? (fun u => u.email == payload.email) = none →
      login st payload = .err 401 "Invalid credentials") ∧
    (∀ u, st.users.find? (fun u => u.email == payload.email) = some u →
      u.password_hash ≠ hash_password payload.password →
      login st payload = .err 401 "Invalid credentials") ∧
    (∀ u, st.users.find? (fun u => u.email == payload.email) = some u →
      u.password_hash = hash_password payload.password →
      login st payload = .ok ⟨toString u.id, ⟨toString u.id, u.name, u.email⟩⟩) := by
  refine ⟨fun h => by simp [login, h], fun u hu hne => ?_, fun u hu he => ?_⟩
  · have hb : (u.password_hash != hash_password payload.password) = true := by
      simpa using hne
    simp [login, hu, hb]
  · have hb : (u.password_hash != hash_password payload.password) = false := by
      simpa using he
    simp [login, hu, hb]

/-- Witness for C5: against a store holding one user whose stored hash
is not the hash of "pw", a wrong password and an unknown email produce
the same 401 response. -/
theorem login_spec_witness :
    login ⟨[⟨7, "N", "a@b.c", "nothash", none, true⟩], [], [], 8⟩ ⟨"a@b.c", "pw"⟩ =
      .err 401 "Invalid credentials" ∧
    login ⟨[⟨7, "N", "a@b.c", "nothash", none, true⟩], [], [], 8⟩ ⟨"z@b.c", "pw"⟩ =
      .err 401 "Invalid credentials" :=
  ⟨(login_spec ⟨[⟨7, "N", "a@b.c", "nothash", none, true⟩], [], [], 8⟩ ⟨"a@b.c", "pw"⟩).2.1
      ⟨7, "N", "a@b.c", "nothash", none, true⟩ rfl (by decide),
   (login_spec ⟨[⟨7, "N", "a@b.c", "nothash", none, true⟩], [], [], 8⟩ ⟨"z@b.c", "pw"⟩).1 rfl⟩

/-- C6: registering an email that already exists fails with 400 and
leaves the store unchanged; otherwise exactly one user document is
inserted, with the hashed password and `is_active = true`, and
id/name/email are returned. -/
theorem register_spec (st : Store) (payload : RegisterRequest) :
    ((∃ u ∈ st.users, u.email = payload.email) →
      register st payload = (.err 400 "Email already registered", st)) ∧
    ((∀ u ∈ st.users, u.email ≠ payload.email) →
      register st payload =
        (.ok ⟨toString st.nextId, payload.name, payload.email⟩,
         { st with
             users := st.users ++
               [⟨st.nextId, payload.name, payload.email,
                 hash_password payload.password, none, true⟩],
             nextId := st.nextId + 1 })) := by
  constructor
  · rintro ⟨u, hu, he⟩
    rcases hfind : st.users.find? (fun v => v.email == payload.email) with _ | v
    · rw [List.find?_eq_none] at hfind
      exact absurd (by simpa using he) (hfind u hu)
    · simp [register, hfind]
  · intro hall
    have hfind : st.users.find? (fun v => v.email == payload.email) = none := by
      rw [List.find?_eq_none]
      intro u hu
      simpa using hall u hu
    simp [register, hfind]

/-- Witness for C6: a duplicate email is rejected with the store
untouched, and registration into an empty store inserts one user. -/
theorem register_spec_witness :
    register ⟨[⟨0, "M", "a@b.c", "H", none, true⟩], [], [], 1⟩ ⟨"N", "a@b.c", "pw"⟩ =
      (.err 400 "Email already registered",
       ⟨[⟨0, "M", "a@b.c", "H", none, true⟩], [], [], 1⟩) ∧
    register ⟨[], [], [], 0⟩ ⟨"N", "a@b.c", "pw"⟩ =
      (.ok ⟨"0", "N", "a@b.c"⟩,
       ⟨[⟨0, "N", "a@b.c", hash_password "pw", none, true⟩], [], [], 1⟩) :=
  ⟨(register_spec ⟨[⟨0, "M", "a@b.c", "H", none, true⟩], [], [], 1⟩ ⟨"N", "a@b.c", "pw"⟩).1
      ⟨⟨0, "M", "a@b.c", "H", none, true⟩, by simp, rfl⟩,
   (register_spec ⟨[], [], [], 0⟩ ⟨"N", "a@b.c", "pw"⟩).2 (by simp)⟩

/-- Counterexample for C7 as stated: a create-product request with
price -1 is not rejected with a 4xx ValidationError; `ProductCreate`
carries no bound on `price`, so the request passes validation and the
in-handler `Product(...)` construction raises an uncaught pydantic
error surfacing as HTTP 500. -/
theorem create_product_neg_price_counterexample :
    (create_product ⟨[], [], [], 0⟩ ⟨"t", none, -1, "c", [], none, true⟩ none).1 =
      .err 500 "Internal Server Error" := by
  norm_num [create_product, validProductCreate]

/-- C7 (amended): only the nested flash-sale bounds are checked before
the handler: a `discount_percent` outside [1,95] yields a 422
validation rejection with the store unchanged, while a negative price
passes request validation and instead fails inside the handler at
`Product(...)` construction, surfacing as HTTP 500 — still before any
store write, but not a 4xx ValidationError. -/
theorem create_product_validation (st : Store) (payload : ProductCreate)
    (token : Option String) :
    ((∃ fs, payload.flash_sale = some fs ∧
        (fs.discount_percent < 1 ∨ 95 < fs.discount_percent)) →
      create_product st payload token = (.err 422 "validation error", st)) ∧
    (validProductCreate payload = true → payload.price < 0 →
      create_product st payload token = (.err 500 "Internal Server Error", st)) := by
  constructor
  · rintro ⟨fs, hfs, hd⟩
    have hval : validProductCreate payload = false := by
      rcases hd with hd | hd
      · simp [validProductCreate, hfs,
          decide_eq_false (show ¬(1 ≤ fs.discount_percent) by omega)]
      · simp [validProductCreate, hfs,
          decide_eq_false (show ¬(fs.discount_percent ≤ 95) by omega)]
    simp [create_product, hval]
  · intro hval hneg
    simp [create_product, hval, hneg]

/-- Witness for C7: a discount of 0 is rejected with 422 before the
handler, and a price of -1 passes request validation but fails in the
handler with 500; both leave the store unchanged. -/
theorem create_product_validation_witness :
    create_product ⟨[], [], [], 0⟩ ⟨"t", none, 5, "c", [], some ⟨0, 99⟩, true⟩ none =
      (.err 422 "validation error", ⟨[], [], [], 0⟩) ∧
    create_product ⟨[], [], [], 0⟩ ⟨"t", none, -1, "c", [], none, true⟩ none =
      (.err 500 "Internal Server Error", ⟨[], [], [], 0⟩) :=
  ⟨(create_product_validation ⟨[], [], [], 0⟩
      ⟨"t", none, 5, "c", [], some ⟨0, 99⟩, true⟩ none).1
      ⟨⟨0, 99⟩, rfl, Or.inl (by norm_num)⟩,
   (create_product_validation ⟨[], [], [], 0⟩
      ⟨"t", none, -1, "c", [], none, true⟩ none).2 (by decide) (by norm_num)⟩

/-- C10: the password hash is a deterministic function of the
plaintext, so a successful register followed by a login with the same
email and password succeeds, with the registered id as the token. -/
theorem register_login_roundtrip (st : Store) (p : RegisterRequest)
    (h : st.users.find? (fun u => u.email == p.email) = none) :
    (register st p).1 = .ok ⟨toString st.nextId, p.name, p.email⟩ ∧
    login (register st p).2 ⟨p.email, p.password⟩ =
      .ok ⟨toString st.nextId, ⟨toString st.nextId, p.name, p.email⟩⟩ := by
  have h2 : (register st p).2 =
      { st with
          users := st.users ++
            [⟨st.nextId, p.name, p.email, hash_password p.password, none, true⟩],
          nextId := st.nextId + 1 } := by
    simp [register, h]
  refine ⟨by simp [register, h], ?_⟩
  rw [h2]
  unfold login
  simp [List.find?_append, h]

/-- Witness for C10: registering into an empty store and logging in
with the same credentials succeeds with token "0". -/
theorem register_login_roundtrip_witness :
    (register ⟨[], [], [], 0⟩ ⟨"N", "a@b.c", "pw"⟩).1 = .ok ⟨"0", "N", "a@b.c"⟩ ∧
    login (register ⟨[], [], [], 0⟩ ⟨"N", "a@b.c", "pw"⟩).2 ⟨"a@b.c", "pw"⟩ =
      .ok ⟨"0", ⟨"0", "N", "a@b.c"⟩⟩ :=
  register_login_roundtrip ⟨[], [], [], 0⟩ ⟨"N", "a@b.c", "pw"⟩ rfl

end Marketplace

/-! FIPS 180-4 test vectors, validating the `hash_password` embedding
against the reference digests of `hashlib.sha256`. -/

example : Marketplace.hash_password "abc" =
    "ba7816bf8f01cfea414140de5dae2223b00361a396177a9cb410ff61f20015ad" := by decide

example : Marketplace.hash_password "" =
    "e3b0c44298fc1c149afbf4c8996fb92427ae41e4649b934ca495991b7852b855" := by decide
